import Mathlib

set_option maxHeartbeats 1000000

/-!
# Verification of the get-a-life-alert core

Shallow embedding of the repository sources:

* `FritzClient` (src/fritz-client.ts): session authentication, usage fetch
  with the session-expiry retry, and the markup parser for remaining time.
* `AlertManager` (src/alert-manager.ts): the per-invocation orchestration,
  threshold selection, send/record step, and the connectivity fallback.
* `DatabaseService` / `ConfigService` (src/unnamed/part_000): the sent-alert
  store queried by `wasAlertSentForMinutes`, and configuration validation.

Markup documents are embedded as `List Char`; the specific regular
expressions of the source are implemented as deterministic character-level
scanners with the leftmost-match semantics of the JavaScript engine.
-/

/-! ## FritzClient.parseParentalControlData (src/src/fritz-client.ts, lines 112-176) -/

/-- `TimeRemaining` as returned by the parser (fritz-client.ts lines 4-9). -/
structure TimeRemaining where
  used : String
  total : String
  remainingMinutes : Int
  isExhausted : Bool
deriving DecidableEq

/-- One markup tag: a literal opening angle bracket was already consumed; a
greedy run of characters other than the closing angle bracket follows, then
the closing angle bracket.  Returns the characters after the tag.  This is the
`[^>]*>` part of the device regular expression of fritz-client.ts line 115:
the greedy class cannot cross a closing bracket, so the match is
deterministic. -/
def consumeTag (rest : List Char) : Option (List Char) :=
  match (rest.span (fun c => c ≠ '>')).2 with
  | '>' :: r => some r
  | _ => none

/-- Does the device regular expression of fritz-client.ts line 115 match at
the start of `s`: a tag, the device name verbatim, and another tag. -/
def deviceAt (name s : List Char) : Bool :=
  match s with
  | '<' :: rest =>
    match consumeTag rest with
    | some r1 =>
      name.isPrefixOf r1 &&
        (match r1.drop name.length with
         | '<' :: rest2 => (consumeTag rest2).isSome
         | _ => false)
    | none => false
  | _ => false

/-- Leftmost match of the device regular expression: the suffix of the
document from the first position at which `deviceAt` holds.  This is
`htmlData.substring(htmlData.indexOf(deviceMatch[0]))` of fritz-client.ts
lines 116-124: the first occurrence of the matched string is the match
position, because the matched string itself matches the pattern wherever it
occurs. -/
def locateDevice (name : List Char) : List Char → Option (List Char)
  | [] => none
  | c :: cs => if deviceAt name (c :: cs) then some (c :: cs) else locateDevice name cs

/-- Leftmost-match scanner: try `f` at every suffix, left to right. -/
def scanFor {β : Type} (f : List Char → Option β) : List Char → Option β
  | [] => none
  | c :: cs =>
    match f (c :: cs) with
    | some b => some b
    | none => scanFor f cs

/-- The capture group of two digits, a colon and two digits
(the regular expression fragment of fritz-client.ts line 129).
Returns the captured label and the rest. -/
def matchTime2 (s : List Char) : Option (List Char × List Char) :=
  match s with
  | a :: b :: ':' :: c :: d :: rest =>
    if a.isDigit && b.isDigit && c.isDigit && d.isDigit then
      some ([a, b, ':', c, d], rest)
    else none
  | _ => none

/-- The capture group of one digit, a colon and two digits
(the total-time fragment of fritz-client.ts line 130). -/
def matchTime1 (s : List Char) : Option (List Char × List Char) :=
  match s with
  | a :: ':' :: c :: d :: rest =>
    if a.isDigit && c.isDigit && d.isDigit then
      some ([a, ':', c, d], rest)
    else none
  | _ => none

def spanTitleLit : List Char := "<span title=\"".data

def ofLit : List Char := " of ".data

def hoursLit : List Char := " hours\">".data

/-- The exhausted marker of fritz-client.ts line 128. -/
def exhaustedLit : List Char := "<span title=\"Online time exhausted\">".data

/-- Match of the two-digit-hour time span pattern (fritz-client.ts line 129)
at the start of `s`, returning the used and total labels. -/
def matchSpan2At (s : List Char) : Option (List Char × List Char) :=
  if spanTitleLit.isPrefixOf s then
    match matchTime2 (s.drop spanTitleLit.length) with
    | some (used, s2) =>
      if ofLit.isPrefixOf s2 then
        match matchTime2 (s2.drop ofLit.length) with
        | some (total, s3) =>
          if hoursLit.isPrefixOf s3 then some (used, total) else none
        | none => none
      else none
    | none => none
  else none

/-- Match of the one-digit-hour time span pattern (fritz-client.ts line 130)
at the start of `s`. -/
def matchSpan1At (s : List Char) : Option (List Char × List Char) :=
  if spanTitleLit.isPrefixOf s then
    match matchTime2 (s.drop spanTitleLit.length) with
    | some (used, s2) =>
      if ofLit.isPrefixOf s2 then
        match matchTime1 (s2.drop ofLit.length) with
        | some (total, s3) =>
          if hoursLit.isPrefixOf s3 then some (used, total) else none
        | none => none
      else none
    | none => none
  else none

/-- Does `pat` occur as a contiguous run anywhere in `s`?  This is a non-null
result of `String.prototype.match` on a regular expression consisting only of
literal characters, such as the exhausted marker of fritz-client.ts
line 128. -/
def containsSub (pat s : List Char) : Bool :=
  (scanFor (fun t => if pat.isPrefixOf t then some () else none) s).isSome

/-- `timeStr.split(':')` of fritz-client.ts line 168. -/
def splitOnColon (s : List Char) : List (List Char) :=
  s.foldr
    (fun c acc =>
      if c = ':' then [] :: acc
      else
        match acc with
        | g :: gs => (c :: g) :: gs
        | [] => [[c]])
    [[]]

/-- Decimal value of a digit string; the `Number` conversion of
fritz-client.ts line 168 on the digit-only labels produced by the
time-span regular expressions. -/
def digitsToNat (s : List Char) : Nat :=
  s.foldl (fun acc c => acc * 10 + (c.toNat - 48)) 0

/-- `parseTime` of fritz-client.ts lines 167-170: split on the colon and
combine as hours times sixty plus minutes.  The labels fed to it always have
two colon-separated digit groups. -/
def parseTime (timeStr : List Char) : Int :=
  match splitOnColon timeStr with
  | h :: m :: _ => (digitsToNat h : Int) * 60 + (digitsToNat m : Int)
  | _ => 0

/-- `calculateRemainingMinutes` of fritz-client.ts lines 166-176. -/
def calculateRemainingMinutes (used total : List Char) : Int :=
  max 0 (parseTime total - parseTime used)

/-- `parseParentalControlData` of fritz-client.ts lines 112-161: locate the
device, then try the three markers in order: the exhausted marker anywhere in
the scanned region, then the two-digit-hour pattern, then the one-digit-hour
pattern. -/
def parseParentalControlData (htmlData deviceName : String) : Except String TimeRemaining :=
  match locateDevice deviceName.data htmlData.data with
  | none =>
    Except.error ("Device \"" ++ deviceName ++ "\" not found in parental control data")
  | some afterDevice =>
    if containsSub exhaustedLit afterDevice then
      Except.ok ⟨"N/A", "N/A", 0, true⟩
    else
      match scanFor matchSpan2At afterDevice with
      | some (used, total) =>
        Except.ok ⟨⟨used⟩, ⟨total⟩, calculateRemainingMinutes used total,
          decide (calculateRemainingMinutes used total ≤ 0)⟩
      | none =>
        match scanFor matchSpan1At afterDevice with
        | some (used, total) =>
          Except.ok ⟨⟨used⟩, ⟨total⟩, calculateRemainingMinutes used total,
            decide (calculateRemainingMinutes used total ≤ 0)⟩
        | none =>
          Except.error "Could not parse time information from parental control data"

/-! ## FritzClient.getSessionId (src/src/fritz-client.ts, lines 35-73) -/

/-- Outcome of one HTTP transport call: a response body, or a transport
error carrying a message. -/
inductive HttpResult
  | ok (body : String)
  | err (msg : String)
deriving DecidableEq

/-- The suffix of `s` after the first occurrence of the non-empty run
`pat`, or `none` when `pat` does not occur. -/
def afterFirst (pat : List Char) : List Char → Option (List Char)
  | [] => none
  | c :: cs =>
    if pat.isPrefixOf (c :: cs) then some ((c :: cs).drop pat.length)
    else afterFirst pat cs

/-- The characters of `s` before the first occurrence of the non-empty run
`pat`, or `none` when `pat` does not occur. -/
def upToFirst (pat : List Char) : List Char → Option (List Char)
  | [] => none
  | c :: cs =>
    if pat.isPrefixOf (c :: cs) then some []
    else (upToFirst pat cs).map (fun t => c :: t)

/-- The lazily captured group between the first opening tag and the first
closing tag after it: the semantics of the tag-extraction regular expressions
of fritz-client.ts lines 39 and 63.  An opening tag with no closing tag after
it means no opening tag at all has one, so the simple first-then-first scan
is the leftmost match. -/
def extractTagContent (openT closeT body : List Char) : Option (List Char) :=
  (afterFirst openT body).bind (upToFirst closeT)

/-- The challenge captured from the first login response
(fritz-client.ts line 39). -/
def extractChallenge (body : String) : Option String :=
  (extractTagContent "<Challenge>".data "</Challenge>".data body.data).map (fun l => ⟨l⟩)

/-- The session identifier captured from the login response
(fritz-client.ts line 63). -/
def extractSID (body : String) : Option String :=
  (extractTagContent "<SID>".data "</SID>".data body.data).map (fun l => ⟨l⟩)

/-- The fixed-width all-zero session identifier meaning the router rejected
the credentials (fritz-client.ts line 64). -/
def zeroSid : String := "0000000000000000"

/-- `getSessionId` of fritz-client.ts lines 35-73.  `md5hex` stands for the
hex digest of the MD5 hash of the UTF-16LE encoding of its argument
(lines 48-51); `challengeResp` is the outcome of the challenge request and
`loginResp` the outcome of the login submission as a function of the
submitted username and response string.  Every failure is wrapped into the
single authentication error of line 71. -/
def getSessionId (md5hex : String → String) (username password : String)
    (challengeResp : HttpResult) (loginResp : String → String → HttpResult) :
    Except String String :=
  match challengeResp with
  | HttpResult.err m =>
    Except.error ("Failed to authenticate with Fritz router: " ++ m)
  | HttpResult.ok body1 =>
    match extractChallenge body1 with
    | none =>
      Except.error
        "Failed to authenticate with Fritz router: Could not extract challenge from Fritz router"
    | some challenge =>
      match loginResp username (challenge ++ "-" ++ md5hex (challenge ++ "-" ++ password)) with
      | HttpResult.err m =>
        Except.error ("Failed to authenticate with Fritz router: " ++ m)
      | HttpResult.ok body2 =>
        match extractSID body2 with
        | none =>
          Except.error
            "Failed to authenticate with Fritz router: Fritz router authentication failed"
        | some sid =>
          if sid = zeroSid then
            Except.error
              "Failed to authenticate with Fritz router: Fritz router authentication failed"
          else Except.ok sid

/-- The session identifier the router returned during the flow, if any:
`none` when a transport error occurred, when the challenge could not be
extracted (so the login was never submitted and no identifier was returned),
or when the login response carried no identifier. -/
def returnedSessionId (md5hex : String → String) (username password : String)
    (challengeResp : HttpResult) (loginResp : String → String → HttpResult) :
    Option String :=
  match challengeResp with
  | HttpResult.err _ => none
  | HttpResult.ok body1 =>
    match extractChallenge body1 with
    | none => none
    | some challenge =>
      match loginResp username (challenge ++ "-" ++ md5hex (challenge ++ "-" ++ password)) with
      | HttpResult.err _ => none
      | HttpResult.ok body2 => extractSID body2

/-! ## FritzClient.getParentalControlData (src/src/fritz-client.ts, lines 78-107) -/

/-- Outcome of one usage-data fetch attempt (the POST of fritz-client.ts
lines 84-95 together with the parse of line 97): a successful result, an
error whose message contains the word session (the expiry signal of
line 100), or any other error. -/
inductive FetchOutcome
  | okData (result : String)
  | sessionErr (msg : String)
  | otherErr (msg : String)
deriving DecidableEq

/-- `getParentalControlData` of fritz-client.ts lines 78-107, abstracted over
the sequence of fetch-attempt outcomes the router produces; re-authentication
(lines 101-102) is assumed to succeed, as a failed re-authentication throws
out of the catch block.  Returns the number of fetch attempts performed
together with the final result.  On a session-expiry outcome the catch block
of lines 99-104 clears the session and calls the function again on the rest
of the outcome sequence, with no flag or counter bounding the recursion. -/
def getParentalControlData : List FetchOutcome → Nat × Except String String
  | [] => (0, Except.error "Failed to fetch parental control data: Unknown error")
  | FetchOutcome.okData r :: _ => (1, Except.ok r)
  | FetchOutcome.otherErr m :: _ =>
    (1, Except.error ("Failed to fetch parental control data: " ++ m))
  | FetchOutcome.sessionErr _ :: rest =>
    ((getParentalControlData rest).1 + 1, (getParentalControlData rest).2)

/-! ## DatabaseService and AlertManager (src/unnamed/part_000, src/src/alert-manager.ts) -/

/-- One row of the `alert_logs` table (part_000 lines 5-12 and 41-50). -/
structure AlertLog where
  phoneNumber : String
  message : String
  remainingMinutes : Int
  sentAt : String
  date : String
deriving DecidableEq

/-- One row of the `system_logs` table (part_000 lines 14-20). -/
structure SystemLog where
  event : String
  message : String
  timestamp : String
  level : String
deriving DecidableEq

/-- The two append-only tables of DatabaseService. -/
structure DbState where
  alertLogs : List AlertLog
  systemLogs : List SystemLog
deriving DecidableEq

/-- `DatabaseService.logAlert` (part_000 lines 72-85): insert one row. -/
def DbState.logAlert (s : DbState) (a : AlertLog) : DbState :=
  { s with alertLogs := s.alertLogs ++ [a] }

/-- `DatabaseService.logSystem` (part_000 lines 90-97): insert one row. -/
def DbState.logSystem (s : DbState) (l : SystemLog) : DbState :=
  { s with systemLogs := s.systemLogs ++ [l] }

/-- Row match of the dedup query (part_000 lines 116-118). -/
def matchesKey (r : AlertLog) (phone date : String) (mins : Int) : Bool :=
  r.phoneNumber == phone && r.date == date && r.remainingMinutes == mins

/-- `DatabaseService.wasAlertSentForMinutes` (part_000 lines 115-123): is the
count of rows with the given phone number, date and remaining-minutes key
positive? -/
def DbState.wasAlertSentForMinutes (s : DbState) (phone date : String) (mins : Int) : Bool :=
  s.alertLogs.any (fun r => matchesKey r phone date mins)

/-- A threshold rule (`MessageConfig` of part_000 lines 184-187). -/
structure MessageConfig where
  minutes : Int
  message : String
deriving DecidableEq

/-- A destination (`NumberConfig` of part_000 lines 189-193). -/
structure NumberConfig where
  number : String
  isAdmin : Bool
  MessageWhenRemainingMins : List MessageConfig
deriving DecidableEq

/-- The validated configuration as consumed by AlertManager; only the
destination list is relevant to it. -/
structure Config where
  NumbersToSMS : List NumberConfig
deriving DecidableEq


/-- One call to the notification transport (`SmsService.sendSms`,
sms-service.ts lines 20-34): destination number (the `to` argument of the
source), message, and whether the transport reported success. -/
structure SmsCall where
  toNum : String
  message : String
  sendOk : Bool
deriving DecidableEq

/-- The mutable collaborators of one or more invocations: the database, the
sequence of outcomes the notification transport will report for the next
sends (an oracle consumed one entry per call), and the log of transport calls
made so far. -/
structure World where
  db : DbState
  smsOutcomes : List Bool
  smsLog : List SmsCall
deriving DecidableEq

/-- One call to `SmsService.sendSms`: consume the next transport outcome and
log the call.  `sendSms` never throws (sms-service.ts catches internally and
returns false). -/
def World.sendSms (w : World) (toNum message : String) : Bool × World :=
  match w.smsOutcomes with
  | [] => (false, { w with smsLog := w.smsLog ++ [⟨toNum, message, false⟩] })
  | b :: rest =>
    (b, { db := w.db, smsOutcomes := rest, smsLog := w.smsLog ++ [⟨toNum, message, b⟩] })

/-- The comparator of alert-manager.ts line 96 as a relation: descending by
`minutes`.  JavaScript array sort is stable, as is insertion sort, and stable
sorts of the same preorder agree, so `List.insertionSort` models it
exactly. -/
def msgGE (a b : MessageConfig) : Prop := b.minutes ≤ a.minutes

instance : DecidableRel msgGE := fun a b => inferInstanceAs (Decidable (b.minutes ≤ a.minutes))

instance : IsTotal MessageConfig msgGE := ⟨fun a b => le_total b.minutes a.minutes⟩

instance : IsTrans MessageConfig msgGE := ⟨fun _ _ _ hab hbc => le_trans hbc hab⟩

/-- The sort of alert-manager.ts lines 95-96. -/
def sortMessagesDesc (msgs : List MessageConfig) : List MessageConfig :=
  List.insertionSort msgGE msgs

/-- The per-rule test of the selection loop (alert-manager.ts lines 99-105):
the remaining minutes are at or below the rule threshold and the dedup query
for the rule threshold returned false. -/
def alertPred (remainingMinutes : Int) (dedup : Int → Bool) (m : MessageConfig) : Bool :=
  decide (remainingMinutes ≤ m.minutes) && ! dedup m.minutes

/-- The selection loop of alert-manager.ts lines 90-111: walk the rules in
descending threshold order and take the first one passing `alertPred`. -/
def selectAlert (remainingMinutes : Int) (msgs : List MessageConfig) (dedup : Int → Bool) :
    Option MessageConfig :=
  (sortMessagesDesc msgs).find? (alertPred remainingMinutes dedup)

/-- `AlertManager.processAlertsForNumber` (alert-manager.ts lines 83-141).
The guard of line 114 tests the selected message for truthiness, so an empty
selected message sends nothing.  On transport success the alert row and an
`alert_sent` system row are written; on failure only an `alert_failed` system
row is. -/
def processAlertsForNumber (nc : NumberConfig) (remainingMinutes : Int)
    (today now : String) (w : World) : World :=
  match selectAlert remainingMinutes nc.MessageWhenRemainingMins
      (fun m => w.db.wasAlertSentForMinutes nc.number today m) with
  | none => w
  | some mc =>
    if mc.message = "" then w
    else
      let sent := w.sendSms nc.number mc.message
      let w1 := sent.2
      if sent.1 then
        let db2 := (w1.db.logAlert ⟨nc.number, mc.message, mc.minutes, now, today⟩).logSystem
          ⟨"alert_sent",
            "Alert sent to " ++ nc.number ++ " for " ++ toString mc.minutes
              ++ " minutes remaining", now, "info"⟩
        { w1 with db := db2 }
      else
        let db2 := w1.db.logSystem
          ⟨"alert_failed", "Failed to send alert to " ++ nc.number, now, "error"⟩
        { w1 with db := db2 }

/-- The fixed connectivity-failure message of alert-manager.ts line 154. -/
def connMessage : String :=
  "⚠️ Get A Life Alert: Cannot connect to Fritz router. Please check the system."

/-- The body of the admin loop of alert-manager.ts lines 152-168: gated by
the dedup query with the sentinel key, send the fixed message, and on
transport success record a row with the sentinel key. -/
def handleAdmin (today now : String) (w : World) (admin : NumberConfig) : World :=
  if w.db.wasAlertSentForMinutes admin.number today (-1) then w
  else
    let sent := w.sendSms admin.number connMessage
    let w1 := sent.2
    if sent.1 then
      let db2 := w1.db.logAlert ⟨admin.number, connMessage, -1, now, today⟩
      { w1 with db := db2 }
    else w1

/-- `AlertManager.handleFritzConnectionError` (alert-manager.ts
lines 146-176): run the admin loop over the admin-flagged destinations, then
log the connectivity event. -/
def handleFritzConnectionError (cfg : Config) (today now : String) (w : World) : World :=
  let w1 := (cfg.NumbersToSMS.filter (fun n => n.isAdmin)).foldl (handleAdmin today now) w
  let db2 := w1.db.logSystem
    ⟨"fritz_connection_error", "Cannot connect to Fritz router", now, "error"⟩
  { w1 with db := db2 }

/-- How the fetch phase of one invocation ended: usage state obtained, the
connection test of alert-manager.ts line 40 failed, or
`getParentalControlData` threw (authentication, fetch or parse failure). -/
inductive FetchResult
  | ok (t : TimeRemaining)
  | notConnected
  | fetchError (msg : String)
deriving DecidableEq

/-- `AlertManager.checkAndAlert` (alert-manager.ts lines 27-78): log the
start, then either process every configured destination against the obtained
usage state, or route the failure to `handleFritzConnectionError` (the
`notConnected` branch of line 41 and the catch block of lines 63-77). -/
def checkAndAlert (cfg : Config) (fr : FetchResult) (today now : String) (w : World) : World :=
  let dbStart := w.db.logSystem ⟨"check_start", "Starting network time check", now, "info"⟩
  let w0 := { w with db := dbStart }
  match fr with
  | FetchResult.notConnected => handleFritzConnectionError cfg today now w0
  | FetchResult.fetchError msg =>
    let dbErr := w0.db.logSystem ⟨"check_error", "Error during check: " ++ msg, now, "error"⟩
    handleFritzConnectionError cfg today now { w0 with db := dbErr }
  | FetchResult.ok t =>
    let dbTime := w0.db.logSystem
      ⟨"time_check",
        "Time remaining: " ++ toString t.remainingMinutes ++ " minutes", now, "info"⟩
    cfg.NumbersToSMS.foldl
      (fun w2 nc => processAlertsForNumber nc t.remainingMinutes today now w2)
      { w0 with db := dbTime }

/-- A sequence of invocations within one calendar day, each with a fetch
result and a wall-clock timestamp; the store persists between them
(spec section 6: writes are visible to the next invocation). -/
def runDay (cfg : Config) (today : String) (invs : List (FetchResult × String)) (w : World) :
    World :=
  invs.foldl (fun w p => checkAndAlert cfg p.1 today p.2 w) w

/-! ## ConfigService.validateConfig (src/unnamed/part_000, lines 246-301) -/

/-- A raw YAML scalar as loaded before validation; the `typeof` checks of the
source distinguish numbers and booleans from everything else. -/
inductive YamlVal
  | num (n : Int)
  | str (s : String)
  | boolVal (b : Bool)
deriving DecidableEq

/-- Is the raw value a number (`typeof msg.minutes === 'number'`)? -/
def YamlVal.isNum : YamlVal → Bool
  | YamlVal.num _ => true
  | _ => false

/-- A raw threshold rule before validation; `message` is the string of the
entry, with the empty string standing for a missing or falsy value. -/
structure RawMessageConfig where
  minutes : YamlVal
  message : String
deriving DecidableEq

/-- A raw destination entry before validation; `isAdmin` is `none` when the
value is not a boolean and `MessageWhenRemainingMins` is `none` when the
field is missing or not an array. -/
structure RawNumberConfig where
  number : String
  isAdmin : Option Bool
  MessageWhenRemainingMins : Option (List RawMessageConfig)
deriving DecidableEq

structure RawFritzConfig where
  url : String
  device_name : String
deriving DecidableEq

/-- The raw configuration fields inspected by `validateConfig`. -/
structure RawConfig where
  fritz : Option RawFritzConfig
  NumbersToSMS : Option (List RawNumberConfig)
  cron_schedule : String
deriving DecidableEq

/-- The per-rule checks of part_000 lines 275-282: the minutes value must be
a number — no sign or range check — and the message must be truthy. -/
def validateMessage (idx msgIdx : Nat) (msg : RawMessageConfig) : List String :=
  (if msg.minutes.isNum then []
   else ["Invalid minutes value for NumbersToSMS[" ++ toString idx
      ++ "].MessageWhenRemainingMins[" ++ toString msgIdx ++ "]"])
    ++ (if msg.message = "" then
        ["Missing message for NumbersToSMS[" ++ toString idx
          ++ "].MessageWhenRemainingMins[" ++ toString msgIdx ++ "]"]
      else [])

/-- The per-destination checks of part_000 lines 265-284. -/
def validateNumber (idx : Nat) (nc : RawNumberConfig) : List String :=
  (if nc.number = "" then ["Missing number for NumbersToSMS[" ++ toString idx ++ "]"] else [])
    ++ (match nc.isAdmin with
        | some _ => []
        | none => ["Invalid isAdmin value for NumbersToSMS[" ++ toString idx ++ "]"])
    ++ (match nc.MessageWhenRemainingMins with
        | none =>
          ["Missing or invalid MessageWhenRemainingMins for NumbersToSMS["
            ++ toString idx ++ "]"]
        | some msgs => (msgs.enum.map (fun p => validateMessage idx p.1 p.2)).flatten)

/-- `ConfigService.validateConfig` (part_000 lines 246-301): the list of
validation errors; the constructor throws exactly when it is non-empty. -/
def validateConfig (c : RawConfig) : List String :=
  (match c.fritz with
   | none => ["Missing fritz configuration"]
   | some f =>
     (if f.url = "" then ["Missing fritz.url"] else [])
       ++ (if f.device_name = "" then ["Missing fritz.device_name"] else []))
    ++ (match c.NumbersToSMS with
        | none => ["Missing or invalid NumbersToSMS array"]
        | some ncs =>
          (ncs.enum.map (fun p => validateNumber p.1 p.2)).flatten
            ++ (if ncs.any (fun nc => nc.isAdmin == some true) then []
              else ["At least one admin number must be configured"]))
    ++ (if c.cron_schedule = "" then ["Missing cron_schedule"] else [])

/-! ## Concrete sample data and verification-side measures -/

/-- A document with the device tag followed by a numeric time span and then
the exhausted marker. -/
def c7Html : String :=
  "<td>Kid</td><span title=\"00:04 of 02:10 hours\"><span title=\"Online time exhausted\">"

/-- A document with the device tag followed by the time span of spec
section 8: four minutes used of two hours ten. -/
def c8Html : String := "<td>Kid</td><span title=\"00:04 of 02:10 hours\">"

/-- The decimal digit characters. -/
def digitChar (d : Nat) : Char :=
  match d with
  | 0 => '0' | 1 => '1' | 2 => '2' | 3 => '3' | 4 => '4'
  | 5 => '5' | 6 => '6' | 7 => '7' | 8 => '8' | _ => '9'

/-- A two-digit rendering of a number below one hundred. -/
def renderTwoDigits (n : Nat) : List Char := [digitChar (n / 10), digitChar (n % 10)]

/-- An `HH:MM` label as captured by the time-span patterns. -/
def renderHHMM (h m : Nat) : List Char := renderTwoDigits h ++ ':' :: renderTwoDigits m

/-- Number of rows of the store matching a `(destination, date, key)`
triple; the dedup query is the positivity of this count. -/
def countRec (recs : List AlertLog) (phone date : String) (k : Int) : Nat :=
  (recs.filter (fun r => matchesKey r phone date k)).length

/-- Number of successful transport calls to a destination in the call log. -/
def countSuccessTo (log : List SmsCall) (d : String) : Nat :=
  (log.filter (fun c => c.toNum == d && c.sendOk)).length

/-- The threshold list of the end-to-end scenario of spec section 8. -/
def c1Msgs : List MessageConfig := [⟨30, "a"⟩, ⟨15, "b"⟩, ⟨5, "c"⟩, ⟨0, "d"⟩]

/-- The deduplication invariant of spec section 3: at most one row per
`(destination, date, thresholdKey)` triple. -/
def DedupInv (db : DbState) : Prop :=
  ∀ (phone date : String) (k : Int), countRec db.alertLogs phone date k ≤ 1

/-- The destination is configured with the admin flag. -/
def IsAdminNumber (cfg : Config) (d : String) : Prop :=
  ∃ nc ∈ cfg.NumbersToSMS, nc.isAdmin = true ∧ nc.number = d

/-- Run invariant for the connectivity fallback, for a fixed destination and
day: at most one sentinel-keyed row exists, any such row belongs to an
admin-flagged destination, and the sentinel-keyed rows never outnumber the
successful transport calls to the destination. -/
def ConnInv (cfg : Config) (d today : String) (w : World) : Prop :=
  countRec w.db.alertLogs d today (-1) ≤ 1 ∧
  (0 < countRec w.db.alertLogs d today (-1) → IsAdminNumber cfg d) ∧
  countRec w.db.alertLogs d today (-1) ≤ countSuccessTo w.smsLog d

def c3Cfg : Config := ⟨[⟨"+4917", true, []⟩]⟩

def c3Invs : List (FetchResult × String) :=
  [(FetchResult.notConnected, "t1"), (FetchResult.ok ⟨"0:00", "2:00", 120, false⟩, "t2"),
    (FetchResult.notConnected, "t3")]

def c3World : World := ⟨⟨[], []⟩, [true, true, true], []⟩

def c6Number : NumberConfig := ⟨"+4940", false, [⟨30, "low"⟩]⟩

def c6World : World := ⟨⟨[], []⟩, [true], []⟩

/-- A raw configuration whose only threshold rule has the minutes value
minus one. -/
def rawC10 : RawConfig :=
  { fritz := some ⟨"http://fritz.box", "Kid"⟩,
    NumbersToSMS := some [⟨"+4917", some true, some [⟨YamlVal.num (-1), "minus one"⟩]⟩],
    cron_schedule := "*/5 * * * *" }

/-! ## The claims -/

/-- Claim C7: whenever the device pattern matches the document and the
scanned region from that match contains the exhausted marker, the parser
returns zero remaining minutes, the exhausted flag, and the two `N/A`
labels, regardless of any numeric time labels also present in that region:
the exhausted marker is tested before either numeric pattern. -/
theorem claim_C7 (htmlData deviceName : String) (region : List Char)
    (hloc : locateDevice deviceName.data htmlData.data = some region)
    (hex : containsSub exhaustedLit region = true) :
    parseParentalControlData htmlData deviceName = Except.ok ⟨"N/A", "N/A", 0, true⟩ := by
  unfold parseParentalControlData
  rw [hloc]
  simp [hex]

/-- Witness for C7 at a concrete document in which a numeric time label
precedes the exhausted marker inside the scanned region. -/
theorem claim_C7_witness :
    parseParentalControlData c7Html "Kid" = Except.ok ⟨"N/A", "N/A", 0, true⟩ :=
  claim_C7 c7Html "Kid" c7Html.data (by decide) (by decide)

theorem digitChar_toNat (d : Nat) (hd : d < 10) : (digitChar d).toNat - 48 = d := by
  interval_cases d <;> rfl

theorem digitChar_ne_colon (d : Nat) : digitChar d ≠ ':' := by
  unfold digitChar
  split <;> decide

theorem splitOnColon_pair (a b c d : Char) (ha : a ≠ ':') (hb : b ≠ ':') (hc : c ≠ ':')
    (hd : d ≠ ':') : splitOnColon [a, b, ':', c, d] = [[a, b], [c, d]] := by
  simp [splitOnColon, ha, hb, hc, hd]

theorem digitsToNat_pair (a b : Char) :
    digitsToNat [a, b] = (a.toNat - 48) * 10 + (b.toNat - 48) := by
  simp [digitsToNat, List.foldl]

theorem parseTime_renderHHMM (h m : Nat) (hh : h < 100) (hm : m < 100) :
    parseTime (renderHHMM h m) = (h : Int) * 60 + (m : Int) := by
  have e : renderHHMM h m
      = [digitChar (h / 10), digitChar (h % 10), ':', digitChar (m / 10), digitChar (m % 10)] :=
    rfl
  rw [e, parseTime, splitOnColon_pair _ _ _ _ (digitChar_ne_colon _) (digitChar_ne_colon _)
    (digitChar_ne_colon _) (digitChar_ne_colon _)]
  show (digitsToNat [digitChar (h / 10), digitChar (h % 10)] : Int) * 60
      + (digitsToNat [digitChar (m / 10), digitChar (m % 10)] : Int) = (h : Int) * 60 + (m : Int)
  rw [digitsToNat_pair, digitsToNat_pair,
    digitChar_toNat _ (by omega), digitChar_toNat _ (by omega),
    digitChar_toNat _ (by omega), digitChar_toNat _ (by omega)]
  push_cast
  omega

/-- Claim C8: the two labels of a matched time span are converted
independently as hours times sixty plus minutes and the remaining time is
the clamped difference of total and used; the fragment `00:04 of 02:10
hours` parses to 126 remaining minutes, not exhausted; and every parse
result has the exhausted flag exactly when its remaining minutes are at most
zero. -/
theorem claim_C8 :
    (∀ h1 m1 h2 m2 : Nat, h1 < 100 → m1 < 100 → h2 < 100 → m2 < 100 →
      calculateRemainingMinutes (renderHHMM h1 m1) (renderHHMM h2 m2) =
        max 0 (((h2 : Int) * 60 + m2) - ((h1 : Int) * 60 + m1)))
    ∧ parseParentalControlData c8Html "Kid" = Except.ok ⟨"00:04", "02:10", 126, false⟩
    ∧ (∀ (htmlData deviceName : String) (r : TimeRemaining),
        parseParentalControlData htmlData deviceName = Except.ok r →
        (r.isExhausted = true ↔ r.remainingMinutes ≤ 0)) := by
  refine ⟨?_, by rfl, ?_⟩
  · intro h1 m1 h2 m2 hh1 hm1 hh2 hm2
    unfold calculateRemainingMinutes
    rw [parseTime_renderHHMM _ _ hh1 hm1, parseTime_renderHHMM _ _ hh2 hm2]
  · intro htmlData deviceName r hr
    unfold parseParentalControlData at hr
    split at hr
    · simp at hr
    · split at hr
      · injection hr with h
        subst h
        simp
      · split at hr
        · injection hr with h
          subst h
          simp
        · split at hr
          · injection hr with h
            subst h
            simp
          · simp at hr

/-- Witness for C8 at the concrete labels of the spec round trip. -/
theorem claim_C8_witness :
    calculateRemainingMinutes (renderHHMM 0 4) (renderHHMM 2 10) =
      max 0 (((2 : Int) * 60 + 10) - ((0 : Int) * 60 + 4)) ∧
    ((false : Bool) = true ↔ (126 : Int) ≤ 0) :=
  ⟨claim_C8.1 0 4 2 10 (by decide) (by decide) (by decide) (by decide),
    claim_C8.2.2 c8Html "Kid" ⟨"00:04", "02:10", 126, false⟩ claim_C8.2.1⟩

/-- Claim C9: `getSessionId` fails with the authentication error exactly when
the session identifier the router returned during the flow is missing (a
transport error at either step, a missing challenge so that no login was ever
submitted, or a login response without an identifier) or is the fixed-width
all-zero string; otherwise it returns that identifier. -/
theorem claim_C9 (md5hex : String → String) (username password : String)
    (challengeResp : HttpResult) (loginResp : String → String → HttpResult) :
    (∀ s, getSessionId md5hex username password challengeResp loginResp = Except.ok s ↔
      (returnedSessionId md5hex username password challengeResp loginResp = some s ∧
        s ≠ zeroSid))
    ∧ ((∃ e, getSessionId md5hex username password challengeResp loginResp = Except.error e) ↔
      (returnedSessionId md5hex username password challengeResp loginResp = none ∨
        returnedSessionId md5hex username password challengeResp loginResp = some zeroSid)) := by
  unfold getSessionId returnedSessionId
  cases challengeResp with
  | err m => simp
  | ok body1 =>
    cases hch : extractChallenge body1 with
    | none => simp [hch]
    | some challenge =>
      cases hl : loginResp username
          (challenge ++ "-" ++ md5hex (challenge ++ "-" ++ password)) with
      | err m => simp [hch, hl]
      | ok body2 =>
        cases hs : extractSID body2 with
        | none => simp [hch, hl, hs]
        | some sid =>
          by_cases hz : sid = zeroSid
          · subst hz
            simp [hch, hl, hs]
          · simp only [hch, hl, hs, if_neg hz]
            refine ⟨fun s => ⟨fun h => ?_, fun hp => ?_⟩, ⟨fun hp => ?_, fun h => ?_⟩⟩
            · injection h with h
              subst h
              exact ⟨rfl, hz⟩
            · obtain ⟨h1, _⟩ := hp
              injection h1 with h1
              subst h1
              rfl
            · obtain ⟨e, he⟩ := hp
              simp at he
            · rcases h with h | h
              · simp at h
              · injection h with h
                exact absurd h hz

/-- Witness for C9: a successful challenge-response flow returning a
non-zero identifier. -/
theorem claim_C9_witness :
    getSessionId (fun _ => "d41d8cd9") "admin" "secret"
      (HttpResult.ok "<Challenge>abc</Challenge>")
      (fun _ _ => HttpResult.ok "<SID>1234567890abcdef</SID>") =
      Except.ok "1234567890abcdef" :=
  ((claim_C9 (fun _ => "d41d8cd9") "admin" "secret"
      (HttpResult.ok "<Challenge>abc</Challenge>")
      (fun _ _ => HttpResult.ok "<SID>1234567890abcdef</SID>")).1 "1234567890abcdef").mpr
    ⟨by decide, by decide⟩

/-- Claim C2 probe: on the outcome sequence expiry, expiry, success, the
fetch routine performs a third attempt and returns its data instead of
routing the second expiry to connectivity-failure handling; in general, a
run of `n` consecutive expiry signals leads to `n + 1` fetch attempts: the
retry is unbounded, contradicting the one-retry contract of the spec and of
the source comment at fritz-client.ts line 99. -/
theorem claim_C2 :
    getParentalControlData
        [FetchOutcome.sessionErr "session expired", FetchOutcome.sessionErr "session expired",
          FetchOutcome.okData "<html>"] = (3, Except.ok "<html>")
    ∧ ∀ (n : Nat) (r : String),
        (getParentalControlData
          (List.replicate n (FetchOutcome.sessionErr "session expired")
            ++ [FetchOutcome.okData r])).1 = n + 1 := by
  constructor
  · rfl
  · intro n r
    induction n with
    | zero => rfl
    | succ k ih =>
      rw [List.replicate_succ, List.cons_append]
      show (getParentalControlData
        (List.replicate k (FetchOutcome.sessionErr "session expired")
          ++ [FetchOutcome.okData r])).1 + 1 = k + 1 + 1
      rw [ih]

theorem countRec_append (recs : List AlertLog) (a : AlertLog) (phone date : String) (k : Int) :
    countRec (recs ++ [a]) phone date k =
      countRec recs phone date k + (if matchesKey a phone date k then 1 else 0) := by
  simp only [countRec, List.filter_append, List.length_append]
  cases h : matchesKey a phone date k <;> simp [h]

theorem countSuccessTo_append (log : List SmsCall) (c : SmsCall) (d : String) :
    countSuccessTo (log ++ [c]) d =
      countSuccessTo log d + (if c.toNum == d && c.sendOk then 1 else 0) := by
  simp only [countSuccessTo, List.filter_append, List.length_append]
  cases h : (c.toNum == d && c.sendOk) <;> simp [h]

theorem wasAlertSent_false_iff (db : DbState) (phone date : String) (k : Int) :
    db.wasAlertSentForMinutes phone date k = false ↔
      countRec db.alertLogs phone date k = 0 := by
  simp [DbState.wasAlertSentForMinutes, countRec, List.any_eq_false,
    List.length_eq_zero, List.filter_eq_nil_iff]

theorem logAlert_alertLogs (db : DbState) (a : AlertLog) :
    (db.logAlert a).alertLogs = db.alertLogs ++ [a] := rfl

theorem logSystem_alertLogs (db : DbState) (l : SystemLog) :
    (db.logSystem l).alertLogs = db.alertLogs := rfl

theorem sendSms_db (w : World) (toN msg : String) : (w.sendSms toN msg).2.db = w.db := by
  unfold World.sendSms
  cases w.smsOutcomes <;> rfl

theorem sendSms_smsLog (w : World) (toN msg : String) :
    (w.sendSms toN msg).2.smsLog = w.smsLog ++ [⟨toN, msg, (w.sendSms toN msg).1⟩] := by
  unfold World.sendSms
  cases w.smsOutcomes <;> rfl

/-- Fold preservation of a predicate, with membership of the step element
available to the step hypothesis. -/
theorem foldl_preserve {α σ : Type} (P : σ → Prop) (f : σ → α → σ) :
    ∀ l : List α, (∀ a ∈ l, ∀ s, P s → P (f s a)) → ∀ s, P s → P (l.foldl f s) := by
  intro l
  induction l with
  | nil => intro _ s hs; simpa using hs
  | cons x xs ih =>
    intro h s hs
    exact ih (fun a ha => h a (List.mem_cons_of_mem _ ha)) (f s x)
      (h x (List.mem_cons_self _ _) s hs)

/-- In a list sorted descending by threshold, the first element found by a
predicate has the greatest threshold among all elements satisfying it. -/
theorem find_first_max (p : MessageConfig → Bool) :
    ∀ l : List MessageConfig, l.Sorted msgGE → ∀ a, l.find? p = some a →
      ∀ b ∈ l, p b = true → b.minutes ≤ a.minutes := by
  intro l
  induction l with
  | nil => intro _ a ha; simp at ha
  | cons x xs ih =>
    intro hs a ha b hb hpb
    rw [List.sorted_cons] at hs
    rw [List.mem_cons] at hb
    by_cases hpx : p x
    · rw [List.find?_cons_of_pos _ hpx] at ha
      injection ha with ha
      subst ha
      rcases hb with rfl | hb
      · exact le_refl _
      · exact hs.1 b hb
    · rw [List.find?_cons_of_neg _ hpx] at ha
      rcases hb with rfl | hb
      · exact absurd hpb hpx
      · exact ih hs.2 a ha b hb hpb

/-- Claim C1: for a non-negative remaining-minutes value, the selection
returns exactly the rule of greatest threshold among those whose threshold
is at least the remaining minutes and whose dedup query is false; when every
qualifying rule is already recorded, nothing is selected; and one run of
`processAlertsForNumber` performs at most one transport call. -/
theorem claim_C1 (remainingMinutes : Int) (msgs : List MessageConfig) (dedup : Int → Bool)
    (hrem : 0 ≤ remainingMinutes) :
    (∀ mc, selectAlert remainingMinutes msgs dedup = some mc →
      mc ∈ msgs ∧ remainingMinutes ≤ mc.minutes ∧ dedup mc.minutes = false ∧
        ∀ m ∈ msgs, remainingMinutes ≤ m.minutes → dedup m.minutes = false →
          m.minutes ≤ mc.minutes)
    ∧ (selectAlert remainingMinutes msgs dedup = none →
      ∀ m ∈ msgs, remainingMinutes ≤ m.minutes → dedup m.minutes = true)
    ∧ (∀ (nc : NumberConfig) (today now : String) (w : World),
      (processAlertsForNumber nc remainingMinutes today now w).smsLog.length ≤
        w.smsLog.length + 1) := by
  refine ⟨?_, ?_, ?_⟩
  · intro mc hsel
    have hp : alertPred remainingMinutes dedup mc = true := List.find?_some hsel
    have hmem : mc ∈ msgs := by
      have := List.mem_of_find?_eq_some hsel
      simpa [sortMessagesDesc] using this
    simp only [alertPred, Bool.and_eq_true, decide_eq_true_eq, Bool.not_eq_true'] at hp
    refine ⟨hmem, hp.1, hp.2, ?_⟩
    intro m hm hle hded
    refine find_first_max _ _ (List.sorted_insertionSort msgGE msgs) mc hsel m ?_ ?_
    · simpa [sortMessagesDesc] using hm
    · simp [alertPred, hle, hded]
  · intro hsel m hm hle
    rw [selectAlert, List.find?_eq_none] at hsel
    have := hsel m (by simpa [sortMessagesDesc] using hm)
    simp only [alertPred, Bool.and_eq_true, decide_eq_true_eq, Bool.not_eq_true'] at this
    by_contra hded
    exact this ⟨hle, by simpa using hded⟩
  · intro nc today now w
    unfold processAlertsForNumber
    split
    · omega
    · split
      · omega
      · cases hout : w.smsOutcomes with
        | nil => simp [World.sendSms, hout]
        | cons b rest => cases b <;> simp [World.sendSms, hout]

/-- Witness for C1: thresholds 30, 15, 5, 0 with threshold 30 already
recorded and twelve minutes remaining select rule 15. -/
theorem claim_C1_witness :
    (⟨15, "b"⟩ : MessageConfig) ∈ c1Msgs ∧ (12 : Int) ≤ (15 : Int) ∧
      (((15 : Int) == 30) = false) ∧
      ∀ m ∈ c1Msgs, (12 : Int) ≤ m.minutes → ((m.minutes == 30) = false) →
        m.minutes ≤ (15 : Int) :=
  (claim_C1 12 c1Msgs (fun m => m == 30) (by decide)).1 ⟨15, "b"⟩ (by decide)

/-- One `processAlertsForNumber` run either leaves the store untouched (no
rule selected, empty selected message, or failed send, the latter adding one
failed transport call) or appends exactly the selected rule's row after its
dedup query returned false, together with one successful transport call. -/
theorem processAlerts_spec (nc : NumberConfig) (rem : Int) (today now : String) (w : World) :
    ((processAlertsForNumber nc rem today now w).db.alertLogs = w.db.alertLogs ∧
      ((processAlertsForNumber nc rem today now w).smsLog = w.smsLog ∨
        ∃ c : SmsCall, c.sendOk = false ∧
          (processAlertsForNumber nc rem today now w).smsLog = w.smsLog ++ [c]))
    ∨ ∃ mc : MessageConfig,
        selectAlert rem nc.MessageWhenRemainingMins
            (fun m => w.db.wasAlertSentForMinutes nc.number today m) = some mc ∧
          w.db.wasAlertSentForMinutes nc.number today mc.minutes = false ∧
          rem ≤ mc.minutes ∧
          (processAlertsForNumber nc rem today now w).db.alertLogs =
            w.db.alertLogs ++ [⟨nc.number, mc.message, mc.minutes, now, today⟩] ∧
          (processAlertsForNumber nc rem today now w).smsLog =
            w.smsLog ++ [⟨nc.number, mc.message, true⟩] := by
  unfold processAlertsForNumber
  split
  · exact Or.inl ⟨rfl, Or.inl rfl⟩
  · rename_i mc hsel
    split
    · exact Or.inl ⟨rfl, Or.inl rfl⟩
    · have hp : alertPred rem (fun m => w.db.wasAlertSentForMinutes nc.number today m) mc =
          true := List.find?_some hsel
      simp only [alertPred, Bool.and_eq_true, decide_eq_true_eq, Bool.not_eq_true'] at hp
      cases hout : w.smsOutcomes with
      | nil =>
        refine Or.inl ⟨?_, Or.inr ⟨⟨nc.number, mc.message, false⟩, rfl, ?_⟩⟩ <;>
          simp [World.sendSms, hout, DbState.logSystem]
      | cons b rest =>
        cases b with
        | false =>
          refine Or.inl ⟨?_, Or.inr ⟨⟨nc.number, mc.message, false⟩, rfl, ?_⟩⟩ <;>
            simp [World.sendSms, hout, DbState.logSystem]
        | true =>
          refine Or.inr ⟨mc, hsel, hp.2, hp.1, ?_, ?_⟩ <;>
            simp [World.sendSms, hout, DbState.logAlert, DbState.logSystem]

/-- One `handleAdmin` run either leaves the store untouched (dedup hit or
failed send) or appends exactly the sentinel-keyed connectivity row after the
dedup query on the sentinel key returned false, together with one successful
transport call. -/
theorem handleAdmin_spec (today now : String) (w : World) (admin : NumberConfig) :
    ((handleAdmin today now w admin).db.alertLogs = w.db.alertLogs ∧
      ((handleAdmin today now w admin).smsLog = w.smsLog ∨
        ∃ c : SmsCall, c.sendOk = false ∧
          (handleAdmin today now w admin).smsLog = w.smsLog ++ [c]))
    ∨ (w.db.wasAlertSentForMinutes admin.number today (-1) = false ∧
        (handleAdmin today now w admin).db.alertLogs =
          w.db.alertLogs ++ [⟨admin.number, connMessage, -1, now, today⟩] ∧
        (handleAdmin today now w admin).smsLog =
          w.smsLog ++ [⟨admin.number, connMessage, true⟩]) := by
  unfold handleAdmin
  split
  · exact Or.inl ⟨rfl, Or.inl rfl⟩
  · rename_i hded
    cases hout : w.smsOutcomes with
    | nil =>
      refine Or.inl ⟨?_, Or.inr ⟨⟨admin.number, connMessage, false⟩, rfl, ?_⟩⟩ <;>
        simp [World.sendSms, hout]
    | cons b rest =>
      cases b with
      | false =>
        refine Or.inl ⟨?_, Or.inr ⟨⟨admin.number, connMessage, false⟩, rfl, ?_⟩⟩ <;>
          simp [World.sendSms, hout]
      | true =>
        refine Or.inr ⟨by simpa using hded, ?_, ?_⟩ <;>
          simp [World.sendSms, hout, DbState.logAlert]

theorem dedupInv_process (nc : NumberConfig) (rem : Int) (today now : String) (w : World)
    (h : DedupInv w.db) : DedupInv (processAlertsForNumber nc rem today now w).db := by
  rcases processAlerts_spec nc rem today now w with ⟨ha, _⟩ | ⟨mc, _, hded, _, ha, _⟩
  · intro phone date k
    rw [ha]
    exact h phone date k
  · intro phone date k
    rw [ha, countRec_append]
    cases hmk : matchesKey ⟨nc.number, mc.message, mc.minutes, now, today⟩ phone date k with
    | false => simpa [hmk] using h phone date k
    | true =>
      simp only [matchesKey, Bool.and_eq_true, beq_iff_eq] at hmk
      obtain ⟨⟨h1, h2⟩, h3⟩ := hmk
      rw [wasAlertSent_false_iff] at hded
      subst h1
      subst h2
      subst h3
      simp [matchesKey, hded]

theorem dedupInv_handleAdmin (today now : String) (w : World) (admin : NumberConfig)
    (h : DedupInv w.db) : DedupInv (handleAdmin today now w admin).db := by
  rcases handleAdmin_spec today now w admin with ⟨ha, _⟩ | ⟨hded, ha, _⟩
  · intro phone date k
    rw [ha]
    exact h phone date k
  · intro phone date k
    rw [ha, countRec_append]
    cases hmk : matchesKey ⟨admin.number, connMessage, -1, now, today⟩ phone date k with
    | false => simpa [hmk] using h phone date k
    | true =>
      simp only [matchesKey, Bool.and_eq_true, beq_iff_eq] at hmk
      obtain ⟨⟨h1, h2⟩, h3⟩ := hmk
      rw [wasAlertSent_false_iff] at hded
      subst h1
      subst h2
      subst h3
      simp [matchesKey, hded]

theorem dedupInv_handleFritz (cfg : Config) (today now : String) (w : World)
    (h : DedupInv w.db) : DedupInv (handleFritzConnectionError cfg today now w).db := by
  have hfold :
      DedupInv (((cfg.NumbersToSMS.filter (fun n => n.isAdmin)).foldl
        (handleAdmin today now) w).db) :=
    foldl_preserve (fun s => DedupInv s.db) (handleAdmin today now) _
      (fun a _ s hs => dedupInv_handleAdmin today now s a hs) w h
  intro phone date k
  exact hfold phone date k

theorem dedupInv_checkAndAlert (cfg : Config) (fr : FetchResult) (today now : String)
    (w : World) (h : DedupInv w.db) : DedupInv (checkAndAlert cfg fr today now w).db := by
  unfold checkAndAlert
  cases fr with
  | notConnected =>
    exact dedupInv_handleFritz cfg today now _ (fun p d k => h p d k)
  | fetchError msg =>
    exact dedupInv_handleFritz cfg today now _ (fun p d k => h p d k)
  | ok t =>
    exact foldl_preserve (fun s => DedupInv s.db)
      (fun w2 nc => processAlertsForNumber nc t.remainingMinutes today now w2) cfg.NumbersToSMS
      (fun nc _ s hs => dedupInv_process nc t.remainingMinutes today now s hs)
      { db := (w.db.logSystem ⟨"check_start", "Starting network time check", now,
            "info"⟩).logSystem
          ⟨"time_check", "Time remaining: " ++ toString t.remainingMinutes ++ " minutes", now,
            "info"⟩,
        smsOutcomes := w.smsOutcomes, smsLog := w.smsLog }
      (fun p d k => h p d k)

/-- Claim C4: the at-most-one-row-per-triple invariant of the sent-alert
store is preserved by every invocation and by every sequence of invocations:
each row append is guarded, within the same invocation, by a dedup query on
its triple returning false. -/
theorem claim_C4 (cfg : Config) (today : String) (w : World) (h : DedupInv w.db) :
    (∀ (fr : FetchResult) (now : String), DedupInv (checkAndAlert cfg fr today now w).db) ∧
    (∀ invs : List (FetchResult × String), DedupInv (runDay cfg today invs w).db) := by
  constructor
  · intro fr now
    exact dedupInv_checkAndAlert cfg fr today now w h
  · intro invs
    exact foldl_preserve (fun s => DedupInv s.db) _ invs
      (fun p _ s hs => dedupInv_checkAndAlert cfg p.1 today p.2 s hs) w h

/-- Witness for C4: one failing invocation on an empty store keeps the
invariant. -/
theorem claim_C4_witness :
    DedupInv (checkAndAlert ⟨[⟨"+4917", true, []⟩]⟩ FetchResult.notConnected "2024-01-01" "t"
      ⟨⟨[], []⟩, [true], []⟩).db :=
  (claim_C4 ⟨[⟨"+4917", true, []⟩]⟩ "2024-01-01" ⟨⟨[], []⟩, [true], []⟩
    (by intro p d k; simp [countRec])).1 FetchResult.notConnected "t"

theorem connInv_process (cfg : Config) (d : String) (nc : NumberConfig) (rem : Int)
    (today now : String) (w : World) (hrem : 0 ≤ rem) (h : ConnInv cfg d today w) :
    ConnInv cfg d today (processAlertsForNumber nc rem today now w) := by
  obtain ⟨h1, h2, h3⟩ := h
  rcases processAlerts_spec nc rem today now w with
    ⟨ha, hl | ⟨c, hc, hl⟩⟩ | ⟨mc, _, hded, hle, ha, hl⟩
  · exact ⟨by rw [ha]; exact h1, by rw [ha]; exact h2, by rw [ha, hl]; exact h3⟩
  · refine ⟨by rw [ha]; exact h1, by rw [ha]; exact h2, ?_⟩
    rw [ha, hl, countSuccessTo_append]
    have hcf : (c.toNum == d && c.sendOk) = false := by rw [hc]; simp
    rw [hcf]
    simpa using h3
  · have hnm : matchesKey ⟨nc.number, mc.message, mc.minutes, now, today⟩ d today (-1) =
        false := by
      cases hq : matchesKey ⟨nc.number, mc.message, mc.minutes, now, today⟩ d today (-1) with
      | false => rfl
      | true =>
        simp only [matchesKey, Bool.and_eq_true, beq_iff_eq] at hq
        obtain ⟨⟨_, _⟩, hq3⟩ := hq
        omega
    refine ⟨?_, ?_, ?_⟩
    · rw [ha, countRec_append, hnm]
      simpa using h1
    · rw [ha, countRec_append, hnm]
      intro hpos
      exact h2 (by simpa using hpos)
    · have hnm0 : (if matchesKey ⟨nc.number, mc.message, mc.minutes, now, today⟩ d today (-1)
          then (1 : Nat) else 0) = 0 := by simp [hnm]
      rw [ha, countRec_append, hnm0, hl, countSuccessTo_append]
      split <;> omega

theorem connInv_handleAdmin (cfg : Config) (d today now : String) (admin : NumberConfig)
    (hmem : admin ∈ cfg.NumbersToSMS) (hadm : admin.isAdmin = true) (w : World)
    (h : ConnInv cfg d today w) : ConnInv cfg d today (handleAdmin today now w admin) := by
  obtain ⟨h1, h2, h3⟩ := h
  rcases handleAdmin_spec today now w admin with
    ⟨ha, hl | ⟨c, hc, hl⟩⟩ | ⟨hded, ha, hl⟩
  · exact ⟨by rw [ha]; exact h1, by rw [ha]; exact h2, by rw [ha, hl]; exact h3⟩
  · refine ⟨by rw [ha]; exact h1, by rw [ha]; exact h2, ?_⟩
    rw [ha, hl, countSuccessTo_append]
    have hcf : (c.toNum == d && c.sendOk) = false := by rw [hc]; simp
    rw [hcf]
    simpa using h3
  · by_cases hd : admin.number = d
    · subst hd
      have h0 : countRec w.db.alertLogs admin.number today (-1) = 0 :=
        (wasAlertSent_false_iff w.db admin.number today (-1)).mp hded
      have hmk : matchesKey ⟨admin.number, connMessage, -1, now, today⟩ admin.number today
          (-1) = true := by simp [matchesKey]
      refine ⟨?_, ?_, ?_⟩
      · rw [ha, countRec_append, hmk, h0]
        simp
      · intro _
        exact ⟨admin, hmem, hadm, rfl⟩
      · rw [ha, countRec_append, hmk, h0, hl, countSuccessTo_append]
        have hct : ((⟨admin.number, connMessage, true⟩ : SmsCall).toNum == admin.number &&
            (⟨admin.number, connMessage, true⟩ : SmsCall).sendOk) = true := by simp
        rw [hct]
        simp
    · have hmk : matchesKey ⟨admin.number, connMessage, -1, now, today⟩ d today (-1) =
          false := by simp [matchesKey, hd]
      refine ⟨?_, ?_, ?_⟩
      · rw [ha, countRec_append, hmk]
        simpa using h1
      · rw [ha, countRec_append, hmk]
        intro hpos
        exact h2 (by simpa using hpos)
      · have hmk0 : (if matchesKey ⟨admin.number, connMessage, -1, now, today⟩ d today (-1)
            then (1 : Nat) else 0) = 0 := by simp [hmk]
        rw [ha, countRec_append, hmk0, hl, countSuccessTo_append]
        split <;> omega

theorem connInv_handleFritz (cfg : Config) (d today now : String) (w : World)
    (h : ConnInv cfg d today w) :
    ConnInv cfg d today (handleFritzConnectionError cfg today now w) := by
  have hfold : ConnInv cfg d today
      ((cfg.NumbersToSMS.filter (fun n => n.isAdmin)).foldl (handleAdmin today now) w) :=
    foldl_preserve (ConnInv cfg d today) (handleAdmin today now) _
      (fun a ha s hs => by
        rw [List.mem_filter] at ha
        exact connInv_handleAdmin cfg d today now a ha.1 ha.2 s hs) w h
  exact hfold

theorem connInv_checkAndAlert (cfg : Config) (d today : String) (fr : FetchResult)
    (now : String) (hfr : ∀ t, fr = FetchResult.ok t → 0 ≤ t.remainingMinutes) (w : World)
    (h : ConnInv cfg d today w) : ConnInv cfg d today (checkAndAlert cfg fr today now w) := by
  unfold checkAndAlert
  cases fr with
  | notConnected => exact connInv_handleFritz cfg d today now _ h
  | fetchError msg => exact connInv_handleFritz cfg d today now _ h
  | ok t =>
    exact foldl_preserve (ConnInv cfg d today)
      (fun w2 nc => processAlertsForNumber nc t.remainingMinutes today now w2) cfg.NumbersToSMS
      (fun nc _ s hs =>
        connInv_process cfg d nc t.remainingMinutes today now s (hfr t rfl) hs)
      { db := (w.db.logSystem ⟨"check_start", "Starting network time check", now,
            "info"⟩).logSystem
          ⟨"time_check", "Time remaining: " ++ toString t.remainingMinutes ++ " minutes", now,
            "info"⟩,
        smsOutcomes := w.smsOutcomes, smsLog := w.smsLog }
      h

/-- Claim C3: across any sequence of invocations of a day, starting from a
store with no sentinel-keyed row for the destination and that day, at most
one sentinel-keyed row ever appears for it, a sentinel-keyed row appears
only for an admin-flagged destination, and sentinel-keyed rows never exceed
the successful transport calls to the destination (a row is recorded only
after a successful send, so the gated connectivity alert is delivered at
most once per destination per day). -/
theorem claim_C3 (cfg : Config) (today : String) (invs : List (FetchResult × String))
    (w : World) (d : String)
    (hfresh : w.db.wasAlertSentForMinutes d today (-1) = false)
    (hrem : ∀ p ∈ invs, ∀ t, p.1 = FetchResult.ok t → 0 ≤ t.remainingMinutes) :
    countRec (runDay cfg today invs w).db.alertLogs d today (-1) ≤ 1 ∧
    (0 < countRec (runDay cfg today invs w).db.alertLogs d today (-1) → IsAdminNumber cfg d) ∧
    countRec (runDay cfg today invs w).db.alertLogs d today (-1) ≤
      countSuccessTo (runDay cfg today invs w).smsLog d := by
  have h0c : countRec w.db.alertLogs d today (-1) = 0 :=
    (wasAlertSent_false_iff w.db d today (-1)).mp hfresh
  have h0 : ConnInv cfg d today w := by
    refine ⟨by omega, ?_, by omega⟩
    intro hpos
    omega
  exact foldl_preserve (ConnInv cfg d today) (fun s p => checkAndAlert cfg p.1 today p.2 s)
    invs (fun p hp s hs =>
      connInv_checkAndAlert cfg d today p.1 p.2 (fun t ht => hrem p hp t ht) s hs) w h0

/-- Witness for C3: three invocations of one day, two of them connectivity
failures with a willing transport. -/
theorem claim_C3_witness :
    countRec (runDay c3Cfg "2024-01-01" c3Invs c3World).db.alertLogs "+4917" "2024-01-01"
        (-1) ≤ 1 ∧
    (0 < countRec (runDay c3Cfg "2024-01-01" c3Invs c3World).db.alertLogs "+4917" "2024-01-01"
        (-1) → IsAdminNumber c3Cfg "+4917") ∧
    countRec (runDay c3Cfg "2024-01-01" c3Invs c3World).db.alertLogs "+4917" "2024-01-01"
        (-1) ≤ countSuccessTo (runDay c3Cfg "2024-01-01" c3Invs c3World).smsLog "+4917" :=
  claim_C3 c3Cfg "2024-01-01" c3Invs c3World "+4917" (by decide)
    (by
      intro p hp t ht
      simp only [c3Invs, List.mem_cons, List.not_mem_nil, or_false] at hp
      rcases hp with rfl | rfl | rfl
      · simp at ht
      · injection ht with ht
        subst ht
        decide
      · simp at ht)

/-- The connectivity handler only ever appends sentinel-keyed rows to the
sent-alert store. -/
theorem handleFritz_alertLogs (cfg : Config) (today now : String) (w : World) :
    ∃ ext : List AlertLog,
      (handleFritzConnectionError cfg today now w).db.alertLogs = w.db.alertLogs ++ ext ∧
      ∀ r ∈ ext, r.remainingMinutes = -1 := by
  have hfold : ∃ ext : List AlertLog,
      ((cfg.NumbersToSMS.filter (fun n => n.isAdmin)).foldl
          (handleAdmin today now) w).db.alertLogs = w.db.alertLogs ++ ext ∧
        ∀ r ∈ ext, r.remainingMinutes = -1 :=
    foldl_preserve
      (fun s => ∃ ext, s.db.alertLogs = w.db.alertLogs ++ ext ∧
        ∀ r ∈ ext, r.remainingMinutes = -1)
      (handleAdmin today now) _
      (fun a _ s hs => by
        obtain ⟨ext, he, hall⟩ := hs
        rcases handleAdmin_spec today now s a with ⟨ha, _⟩ | ⟨_, ha, _⟩
        · exact ⟨ext, by rw [ha, he], hall⟩
        · refine ⟨ext ++ [⟨a.number, connMessage, -1, now, today⟩],
            by rw [ha, he, List.append_assoc], ?_⟩
          intro r hr
          rcases List.mem_append.mp hr with hr | hr
          · exact hall r hr
          · simp only [List.mem_singleton] at hr
            subst hr
            rfl)
      w ⟨[], by simp, by simp⟩
  obtain ⟨ext, he, hall⟩ := hfold
  exact ⟨ext, he, hall⟩

/-- Claim C5: when the connection test fails or the fetch throws (covering
authentication, fetch and parse failures), the invocation returns normally
and is exactly the connectivity-failure path after the logged events: no
usage-threshold alert row is written, only sentinel-keyed connectivity
rows. -/
theorem claim_C5 (cfg : Config) (today now msg : String) (w : World) :
    checkAndAlert cfg FetchResult.notConnected today now w =
      handleFritzConnectionError cfg today now
        { w with db := (w.db.logSystem
            ⟨"check_start", "Starting network time check", now, "info"⟩) } ∧
    checkAndAlert cfg (FetchResult.fetchError msg) today now w =
      handleFritzConnectionError cfg today now
        { w with db := ((w.db.logSystem
            ⟨"check_start", "Starting network time check", now, "info"⟩).logSystem
            ⟨"check_error", "Error during check: " ++ msg, now, "error"⟩) } ∧
    (∀ r ∈ (checkAndAlert cfg FetchResult.notConnected today now w).db.alertLogs.drop
        w.db.alertLogs.length, r.remainingMinutes = -1) ∧
    (∀ r ∈ (checkAndAlert cfg (FetchResult.fetchError msg) today now w).db.alertLogs.drop
        w.db.alertLogs.length, r.remainingMinutes = -1) := by
  refine ⟨rfl, rfl, ?_, ?_⟩
  · obtain ⟨ext, he, hall⟩ := handleFritz_alertLogs cfg today now
      { w with db := (w.db.logSystem
          ⟨"check_start", "Starting network time check", now, "info"⟩) }
    intro r hr
    have he' : (checkAndAlert cfg FetchResult.notConnected today now w).db.alertLogs =
        w.db.alertLogs ++ ext := he
    rw [he', List.drop_left] at hr
    exact hall r hr
  · obtain ⟨ext, he, hall⟩ := handleFritz_alertLogs cfg today now
      { w with db := ((w.db.logSystem
          ⟨"check_start", "Starting network time check", now, "info"⟩).logSystem
          ⟨"check_error", "Error during check: " ++ msg, now, "error"⟩) }
    intro r hr
    have he' : (checkAndAlert cfg (FetchResult.fetchError msg) today now w).db.alertLogs =
        w.db.alertLogs ++ ext := he
    rw [he', List.drop_left] at hr
    exact hall r hr

/-- Witness helper for C5: a failing invocation equals the connectivity path
on concrete inputs. -/
theorem claim_C5_witness :
    checkAndAlert c3Cfg FetchResult.notConnected "2024-01-01" "t" c3World =
      handleFritzConnectionError c3Cfg "2024-01-01" "t"
        { c3World with db := (c3World.db.logSystem
            ⟨"check_start", "Starting network time check", "t", "info"⟩) } :=
  (claim_C5 c3Cfg "2024-01-01" "t" "boom" c3World).1

/-- Claim C6: for a decided item (a selected rule with a non-empty message),
the alert row is persisted exactly when the transport reported success, with
the `alert_sent` event; on failure no row is written and the distinguishable
`alert_failed` event is logged instead. -/
theorem claim_C6 (nc : NumberConfig) (rem : Int) (today now : String) (w : World)
    (mc : MessageConfig)
    (hsel : selectAlert rem nc.MessageWhenRemainingMins
      (fun m => w.db.wasAlertSentForMinutes nc.number today m) = some mc)
    (hmsg : mc.message ≠ "") :
    ((w.sendSms nc.number mc.message).1 = true →
      (processAlertsForNumber nc rem today now w).db.alertLogs =
        w.db.alertLogs ++ [⟨nc.number, mc.message, mc.minutes, now, today⟩] ∧
      (processAlertsForNumber nc rem today now w).db.systemLogs =
        w.db.systemLogs ++ [⟨"alert_sent", "Alert sent to " ++ nc.number ++ " for "
          ++ toString mc.minutes ++ " minutes remaining", now, "info"⟩]) ∧
    ((w.sendSms nc.number mc.message).1 = false →
      (processAlertsForNumber nc rem today now w).db.alertLogs = w.db.alertLogs ∧
      (processAlertsForNumber nc rem today now w).db.systemLogs =
        w.db.systemLogs ++ [⟨"alert_failed", "Failed to send alert to " ++ nc.number, now,
          "error"⟩]) := by
  unfold processAlertsForNumber
  rw [hsel]
  constructor
  · intro hsend
    cases hout : w.smsOutcomes with
    | nil =>
      rw [World.sendSms, hout] at hsend
      simp at hsend
    | cons b rest =>
      rw [World.sendSms, hout] at hsend
      cases b with
      | false => simp at hsend
      | true =>
        constructor <;>
          simp [hmsg, World.sendSms, hout, DbState.logAlert, DbState.logSystem]
  · intro hsend
    cases hout : w.smsOutcomes with
    | nil =>
      constructor <;>
        simp [hmsg, World.sendSms, hout, DbState.logSystem]
    | cons b rest =>
      rw [World.sendSms, hout] at hsend
      cases b with
      | true => simp at hsend
      | false =>
        constructor <;>
          simp [hmsg, World.sendSms, hout, DbState.logSystem]

/-- Witness for C6 at a concrete decided item with a willing transport. -/
theorem claim_C6_witness :
    ((c6World.sendSms "+4940" "low").1 = true →
      (processAlertsForNumber c6Number 18 "2024-01-01" "t" c6World).db.alertLogs =
        [] ++ [⟨"+4940", "low", 30, "t", "2024-01-01"⟩] ∧
      (processAlertsForNumber c6Number 18 "2024-01-01" "t" c6World).db.systemLogs =
        [] ++ [⟨"alert_sent", "Alert sent to " ++ "+4940" ++ " for " ++ toString (30 : Int)
          ++ " minutes remaining", "t", "info"⟩]) ∧
    ((c6World.sendSms "+4940" "low").1 = false →
      (processAlertsForNumber c6Number 18 "2024-01-01" "t" c6World).db.alertLogs = [] ∧
      (processAlertsForNumber c6Number 18 "2024-01-01" "t" c6World).db.systemLogs =
        [] ++ [⟨"alert_failed", "Failed to send alert to " ++ "+4940", "t", "error"⟩]) :=
  claim_C6 c6Number 18 "2024-01-01" "t" c6World ⟨30, "low"⟩ (by decide) (by decide)

/-- Claim C10: validation accepts a threshold rule with negative minutes (it
only checks that the value is a number), and a rule with minutes minus one
shares its dedup key with the connectivity sentinel: once any row with key
minus one exists for a number and day, the dedup query for the minus-one
threshold reports it sent, the selection predicate can never pick the
minus-one rule again that day, and conversely the connectivity handler skips
a destination whose sentinel query is already positive. -/
theorem claim_C10 :
    validateConfig rawC10 = [] ∧
    (∀ (db : DbState) (n day msg sentAt : String),
      (db.logAlert ⟨n, msg, -1, sentAt, day⟩).wasAlertSentForMinutes n day (-1) = true) ∧
    (∀ (rem : Int) (msg : String) (db : DbState) (n day sentAt cmsg : String),
      alertPred rem
        (fun m => (db.logAlert ⟨n, cmsg, -1, sentAt, day⟩).wasAlertSentForMinutes n day m)
        ⟨-1, msg⟩ = false) ∧
    (∀ (today now : String) (w : World) (admin : NumberConfig),
      w.db.wasAlertSentForMinutes admin.number today (-1) = true →
      handleAdmin today now w admin = w) := by
  refine ⟨by rfl, ?_, ?_, ?_⟩
  · intro db n day msg sentAt
    simp [DbState.logAlert, DbState.wasAlertSentForMinutes, matchesKey]
  · intro rem msg db n day sentAt cmsg
    have h2 : (db.logAlert ⟨n, cmsg, -1, sentAt, day⟩).wasAlertSentForMinutes n day (-1) =
        true := by
      simp [DbState.logAlert, DbState.wasAlertSentForMinutes, matchesKey]
    simp [alertPred, h2]
  · intro today now w admin h
    unfold handleAdmin
    simp [h]

/-- Witness for C10: the handler skips an admin with an existing
sentinel-keyed row. -/
theorem claim_C10_witness :
    handleAdmin "2024-01-01" "t"
      ⟨⟨[⟨"+4917", "x", -1, "t0", "2024-01-01"⟩], []⟩, [true], []⟩ ⟨"+4917", true, []⟩ =
      ⟨⟨[⟨"+4917", "x", -1, "t0", "2024-01-01"⟩], []⟩, [true], []⟩ :=
  claim_C10.2.2.2 "2024-01-01" "t"
    ⟨⟨[⟨"+4917", "x", -1, "t0", "2024-01-01"⟩], []⟩, [true], []⟩ ⟨"+4917", true, []⟩
    (by decide)
